import Mathlib

/-!
Verification of the prompt/streaming handler utilities in
`haystack/nodes/prompt/invocation_layer/handlers.py`.

The Python code is shallowly embedded:

* Python strings are Lean `String`s (sequences of characters);
  `needle in haystack` on strings is contiguous-substring containment,
  `s[k:]` for a nonnegative `k` drops the first `k` characters, and
  `l[:k]` on a list for an arbitrary integer `k` follows Python slice
  semantics (negative stops count from the end, clamped at 0).
* The third-party tokenizer is abstract: a pair of functions
  `tokenize : String → List String` and
  `convert_tokens_to_string : List String → String`.
* The dictionary returned by `DefaultPromptHandler.__call__` is an
  association list in insertion order, with values `String ⊕ Int`
  (Python `Union[str, int]`).
* Calls forwarded to a wrapped streaming handler are recorded as a list
  of the strings passed to it.
-/

/-- Python `needle in haystack` on strings: contiguous substring containment. -/
def PyInStr (needle haystack : String) : Prop :=
  needle.data <:+: haystack.data

instance (n h : String) : Decidable (PyInStr n h) :=
  inferInstanceAs (Decidable (n.data <:+: h.data))

/-- Python `s[k:]` for a nonnegative index `k`. -/
def pyStrDrop (s : String) (k : Nat) : String :=
  String.mk (s.data.drop k)

/-- Python `l[:k]` for an arbitrary integer stop `k`:
a negative stop counts from the end of the list, clamped at 0. -/
def pySliceTo {α : Type} (l : List α) (k : Int) : List α :=
  l.take (if k < 0 then ((l.length : Int) + k).toNat else k.toNat)

namespace AnthropicTokenStreamingHandler

/-- The constructor sets `self.previous_text = ""`. -/
def initPreviousText : String := ""

/-- The reset branch of `__call__` fires exactly when
`self.previous_text not in token_received`. -/
def resets (previous_text token_received : String) : Prop :=
  ¬ PyInStr previous_text token_received

instance (p t : String) : Decidable (resets p t) :=
  inferInstanceAs (Decidable (¬ PyInStr p t))

/-- Result of one `__call__`: the returned string, the strings forwarded to
the wrapped `token_handler` (in order), and the new `previous_text`. -/
structure CallResult where
  returned : String
  forwarded : List String
  previous_text : String
  deriving DecidableEq

/-- One step of `AnthropicTokenStreamingHandler.__call__`, with the current
`self.previous_text` passed explicitly. -/
def call (previous_text token_received : String) : CallResult :=
  let prev := if PyInStr previous_text token_received then previous_text else ""
  let chopped_text := pyStrDrop token_received prev.length
  { returned := chopped_text
    forwarded := [chopped_text]
    previous_text := token_received }

end AnthropicTokenStreamingHandler

namespace HFTokenStreamingHandler

/-- `on_finalized_text`: the strings forwarded to the wrapped
`token_handler` (a newline is appended when `stream_end` is true). -/
def on_finalized_text (token : String) (stream_end : Bool) : List String :=
  let token_to_send := if stream_end then token ++ "\n" else token
  [token_to_send]

end HFTokenStreamingHandler

namespace DefaultPromptHandler

/-- The three locals `resized_prompt`, `prompt_length`, `new_prompt_length`
computed by `DefaultPromptHandler.__call__` before building the result
dictionary. -/
structure Resize where
  resized_prompt : String
  prompt_length : Int
  new_prompt_length : Int
  deriving DecidableEq

/-- The body of `DefaultPromptHandler.__call__` up to the return statement.
`tokenize` and `convert_tokens_to_string` stand for the corresponding
methods of the wrapped `AutoTokenizer`; the Python guard `if prompt:` is
string non-emptiness. -/
def resize (tokenize : String → List String)
    (convert_tokens_to_string : List String → String)
    (model_max_length max_length : Int) (prompt : String) : Resize :=
  if prompt = "" then
    { resized_prompt := prompt, prompt_length := 0, new_prompt_length := 0 }
  else
    let prompt_length : Int := (tokenize prompt).length
    if prompt_length + max_length ≤ model_max_length then
      { resized_prompt := prompt
        prompt_length := prompt_length
        new_prompt_length := prompt_length }
    else
      let tokenized_payload := tokenize prompt
      let payload := pySliceTo tokenized_payload (model_max_length - max_length)
      { resized_prompt := convert_tokens_to_string payload
        prompt_length := prompt_length
        new_prompt_length := (payload.length : Int) }

/-- The dictionary returned by `DefaultPromptHandler.__call__`, as an
association list in Python insertion order. -/
def call (tokenize : String → List String)
    (convert_tokens_to_string : List String → String)
    (model_max_length max_length : Int) (prompt : String) :
    List (String × (String ⊕ Int)) :=
  let r := resize tokenize convert_tokens_to_string model_max_length max_length prompt
  [("resized_prompt", Sum.inl r.resized_prompt),
   ("prompt_length", Sum.inr r.prompt_length),
   ("new_prompt_length", Sum.inr r.new_prompt_length),
   ("model_max_length", Sum.inr model_max_length),
   ("max_length", Sum.inr max_length)]

end DefaultPromptHandler

/-- A concrete tokenizer used for witnesses and counterexamples: each
character is one token. -/
def charTokenize (s : String) : List String :=
  s.data.map (fun c => String.mk [c])

/-- Helper: the empty string is a Python-substring of every string. -/
lemma pyInStr_nil_left (t : String) : PyInStr "" t :=
  ⟨[], t.data, rfl⟩

-- sanity checks on the embedding
example : AnthropicTokenStreamingHandler.call "ab" "abcd" =
    { returned := "cd", forwarded := ["cd"], previous_text := "abcd" } := by decide

example : AnthropicTokenStreamingHandler.call "b" "ab" =
    { returned := "b", forwarded := ["b"], previous_text := "ab" } := by decide

example : AnthropicTokenStreamingHandler.call "x" "ab" =
    { returned := "ab", forwarded := ["ab"], previous_text := "ab" } := by decide

example : DefaultPromptHandler.resize charTokenize String.join 3 1 "abcd" =
    { resized_prompt := "ab", prompt_length := 4, new_prompt_length := 2 } := by decide

example : DefaultPromptHandler.resize charTokenize String.join 0 1 "a" =
    { resized_prompt := "", prompt_length := 1, new_prompt_length := 0 } := by decide

example : DefaultPromptHandler.resize charTokenize String.join 5 2 "abc" =
    { resized_prompt := "abc", prompt_length := 3, new_prompt_length := 3 } := by decide

/-- Claim C6: for every string `t`, a freshly constructed
`AnthropicTokenStreamingHandler` (whose stored `previous_text` is the empty
string set by the constructor) returns `t` in full on its first call. -/
theorem anthropic_first_call_returns_full (t : String) :
    (AnthropicTokenStreamingHandler.call AnthropicTokenStreamingHandler.initPreviousText t).returned = t
    ∧ (AnthropicTokenStreamingHandler.call AnthropicTokenStreamingHandler.initPreviousText t).previous_text = t := by
  refine ⟨?_, rfl⟩
  show pyStrDrop t (if PyInStr "" t then "" else "").length = t
  rw [if_pos (pyInStr_nil_left t)]
  show String.mk (t.data.drop 0) = t
  rw [List.drop_zero]

/-- Claim C10: after every call to `AnthropicTokenStreamingHandler.__call__`,
the stored `previous_text` equals the argument of the call, and the returned
string equals the string forwarded to the wrapped `token_handler` (which is
invoked exactly once). -/
theorem anthropic_state_and_forwarding (p t : String) :
    (AnthropicTokenStreamingHandler.call p t).previous_text = t
    ∧ (AnthropicTokenStreamingHandler.call p t).forwarded
        = [(AnthropicTokenStreamingHandler.call p t).returned] :=
  ⟨rfl, rfl⟩

/-- Claim C3: when the stored previous text is a prefix of the incoming text,
the call returns exactly the suffix of the incoming text starting at the
length of the previous text (so previous text ++ returned = incoming text). -/
theorem anthropic_extension_returns_suffix (p t : String) (h : p.data <+: t.data) :
    (AnthropicTokenStreamingHandler.call p t).returned = pyStrDrop t p.length
    ∧ p ++ (AnthropicTokenStreamingHandler.call p t).returned = t := by
  obtain ⟨s, hs⟩ := h
  have hin : PyInStr p t := ⟨[], s, hs⟩
  have hret : (AnthropicTokenStreamingHandler.call p t).returned = pyStrDrop t p.length := by
    show pyStrDrop t (if PyInStr p t then p else "").length = _
    rw [if_pos hin]
  refine ⟨hret, ?_⟩
  rw [hret]
  show String.mk (p.data ++ t.data.drop p.data.length) = t
  rw [← hs, List.drop_left]
  exact congrArg String.mk hs

/-- Witness for C3 at previous text "He" and incoming text "Help". -/
theorem anthropic_extension_returns_suffix_witness :
    ("He".data <+: "Help".data)
    ∧ ((AnthropicTokenStreamingHandler.call "He" "Help").returned = pyStrDrop "Help" "He".length
       ∧ "He" ++ (AnthropicTokenStreamingHandler.call "He" "Help").returned = "Help") :=
  ⟨by decide, anthropic_extension_returns_suffix "He" "Help" (by decide)⟩

/-- Claim C5: when the incoming text does not contain the stored previous text
as a substring, the reset branch fires, the call returns the full incoming
text, and the stored previous text becomes the incoming text. -/
theorem anthropic_reset_returns_full (p t : String) (h : ¬ PyInStr p t) :
    AnthropicTokenStreamingHandler.resets p t
    ∧ (AnthropicTokenStreamingHandler.call p t).returned = t
    ∧ (AnthropicTokenStreamingHandler.call p t).previous_text = t := by
  refine ⟨h, ?_, rfl⟩
  show pyStrDrop t (if PyInStr p t then p else "").length = t
  rw [if_neg h]
  show String.mk (t.data.drop 0) = t
  rw [List.drop_zero]

/-- Witness for C5 at previous text "x" and incoming text "ab". -/
theorem anthropic_reset_returns_full_witness :
    (¬ PyInStr "x" "ab")
    ∧ (AnthropicTokenStreamingHandler.resets "x" "ab"
       ∧ (AnthropicTokenStreamingHandler.call "x" "ab").returned = "ab"
       ∧ (AnthropicTokenStreamingHandler.call "x" "ab").previous_text = "ab") :=
  ⟨by decide, anthropic_reset_returns_full "x" "ab" (by decide)⟩

/-- Counterexample to claim C4: with stored previous text "b" and incoming
text "ab", the previous text is not a prefix of the incoming text, yet no
reset happens (the code tests substring containment, not the prefix
relation), and the call returns the stripped text "b" rather than the full
incoming text. -/
theorem anthropic_reset_prefix_counterexample :
    (¬ ("b".data <+: "ab".data))
    ∧ (¬ AnthropicTokenStreamingHandler.resets "b" "ab")
    ∧ (AnthropicTokenStreamingHandler.call "b" "ab").returned = "b" := by
  decide

/-- Claim C4 (amended): the reset branch fires exactly when the incoming text
does not contain the stored previous text as a substring, and every call
returns the incoming text with its first characters removed up to the length
of the previous text when the previous text is contained, and from position 0
(the full text) otherwise. -/
theorem anthropic_reset_on_substring_mismatch (p t : String) :
    (AnthropicTokenStreamingHandler.resets p t ↔ ¬ PyInStr p t)
    ∧ (AnthropicTokenStreamingHandler.call p t).returned
        = pyStrDrop t (if PyInStr p t then p.length else 0) := by
  refine ⟨Iff.rfl, ?_⟩
  show pyStrDrop t (if PyInStr p t then p else "").length = _
  by_cases h : PyInStr p t
  · rw [if_pos h, if_pos h]
  · rw [if_neg h, if_neg h]
    rfl

/-- Claim C8: `HFTokenStreamingHandler.on_finalized_text` forwards exactly one
string to the wrapped handler, equal to the chunk with a trailing newline
appended when `stream_end` is true and to the chunk itself otherwise. -/
theorem hf_on_finalized_text_forwards_once (token : String) :
    (∀ stream_end, (HFTokenStreamingHandler.on_finalized_text token stream_end).length = 1)
    ∧ HFTokenStreamingHandler.on_finalized_text token true = [token ++ "\n"]
    ∧ HFTokenStreamingHandler.on_finalized_text token false = [token] :=
  ⟨fun se => by cases se <;> rfl, rfl, rfl⟩

/-- Claim C7: the dictionary returned by `DefaultPromptHandler.__call__` has
exactly the five keys, in insertion order, and each key holds the
corresponding computed value. -/
theorem default_prompt_handler_dict_keys (tokenize : String → List String)
    (convert_tokens_to_string : List String → String)
    (model_max_length max_length : Int) (prompt : String) :
    (DefaultPromptHandler.call tokenize convert_tokens_to_string
        model_max_length max_length prompt).map Prod.fst
      = ["resized_prompt", "prompt_length", "new_prompt_length",
         "model_max_length", "max_length"]
    ∧ (DefaultPromptHandler.call tokenize convert_tokens_to_string
        model_max_length max_length prompt).lookup "resized_prompt"
      = some (Sum.inl (DefaultPromptHandler.resize tokenize convert_tokens_to_string
          model_max_length max_length prompt).resized_prompt)
    ∧ (DefaultPromptHandler.call tokenize convert_tokens_to_string
        model_max_length max_length prompt).lookup "prompt_length"
      = some (Sum.inr (DefaultPromptHandler.resize tokenize convert_tokens_to_string
          model_max_length max_length prompt).prompt_length)
    ∧ (DefaultPromptHandler.call tokenize convert_tokens_to_string
        model_max_length max_length prompt).lookup "new_prompt_length"
      = some (Sum.inr (DefaultPromptHandler.resize tokenize convert_tokens_to_string
          model_max_length max_length prompt).new_prompt_length)
    ∧ (DefaultPromptHandler.call tokenize convert_tokens_to_string
        model_max_length max_length prompt).lookup "model_max_length"
      = some (Sum.inr model_max_length)
    ∧ (DefaultPromptHandler.call tokenize convert_tokens_to_string
        model_max_length max_length prompt).lookup "max_length"
      = some (Sum.inr max_length) :=
  ⟨rfl, rfl, rfl, rfl, rfl, rfl⟩

/-- Claim C9: on an empty (falsy) prompt, `DefaultPromptHandler.__call__`
does not depend on the tokenizer at all, and returns the prompt unchanged
with both reported token counts equal to 0. -/
theorem default_prompt_handler_empty_prompt (tok₁ tok₂ : String → List String)
    (conv₁ conv₂ : List String → String) (model_max_length max_length : Int) :
    DefaultPromptHandler.call tok₁ conv₁ model_max_length max_length ""
      = DefaultPromptHandler.call tok₂ conv₂ model_max_length max_length ""
    ∧ (DefaultPromptHandler.call tok₁ conv₁ model_max_length max_length "").lookup "resized_prompt"
      = some (Sum.inl "")
    ∧ (DefaultPromptHandler.call tok₁ conv₁ model_max_length max_length "").lookup "prompt_length"
      = some (Sum.inr 0)
    ∧ (DefaultPromptHandler.call tok₁ conv₁ model_max_length max_length "").lookup "new_prompt_length"
      = some (Sum.inr 0) :=
  ⟨rfl, rfl, rfl, rfl⟩

/-- Helper: a Python slice with a nonnegative stop is a plain take. -/
lemma pySliceTo_of_nonneg {α : Type} (l : List α) (k : Int) (hk : 0 ≤ k) :
    pySliceTo l k = l.take k.toNat := by
  unfold pySliceTo
  rw [if_neg (not_lt.mpr hk)]

/-- Helper: the length of a Python slice with a nonnegative stop is at most
the stop. -/
lemma length_pySliceTo_le_of_nonneg {α : Type} (l : List α) (k : Int) (hk : 0 ≤ k) :
    ((pySliceTo l k).length : Int) ≤ k := by
  rw [pySliceTo_of_nonneg l k hk, List.length_take]
  omega

/-- Helper: the length of a Python slice with a nonnegative stop below the
list length is exactly the stop. -/
lemma length_pySliceTo_of_nonneg_lt {α : Type} (l : List α) (k : Int) (hk : 0 ≤ k)
    (hl : k < (l.length : Int)) :
    ((pySliceTo l k).length : Int) = k := by
  rw [pySliceTo_of_nonneg l k hk, List.length_take]
  omega

/-- Helper: the within-budget branch of `DefaultPromptHandler.__call__`. -/
lemma resize_of_within_budget (tokenize : String → List String)
    (convert_tokens_to_string : List String → String)
    (model_max_length max_length : Int) (prompt : String)
    (hp : ¬ prompt = "")
    (h : ((tokenize prompt).length : Int) + max_length ≤ model_max_length) :
    DefaultPromptHandler.resize tokenize convert_tokens_to_string
        model_max_length max_length prompt
      = { resized_prompt := prompt
          prompt_length := ((tokenize prompt).length : Int)
          new_prompt_length := ((tokenize prompt).length : Int) } := by
  unfold DefaultPromptHandler.resize
  rw [if_neg hp]
  simp only []
  rw [if_pos h]

/-- Helper: the over-budget branch of `DefaultPromptHandler.__call__`. -/
lemma resize_of_over_budget (tokenize : String → List String)
    (convert_tokens_to_string : List String → String)
    (model_max_length max_length : Int) (prompt : String)
    (hp : ¬ prompt = "")
    (h : model_max_length < ((tokenize prompt).length : Int) + max_length) :
    DefaultPromptHandler.resize tokenize convert_tokens_to_string
        model_max_length max_length prompt
      = { resized_prompt := convert_tokens_to_string
            (pySliceTo (tokenize prompt) (model_max_length - max_length))
          prompt_length := ((tokenize prompt).length : Int)
          new_prompt_length :=
            ((pySliceTo (tokenize prompt) (model_max_length - max_length)).length : Int) } := by
  unfold DefaultPromptHandler.resize
  rw [if_neg hp]
  simp only []
  rw [if_neg (not_le.mpr h)]

/-- Helper: the resized-prompt entry of the returned dictionary. -/
lemma call_lookup_resized_prompt (tokenize : String → List String)
    (convert_tokens_to_string : List String → String)
    (model_max_length max_length : Int) (prompt : String) :
    (DefaultPromptHandler.call tokenize convert_tokens_to_string
        model_max_length max_length prompt).lookup "resized_prompt"
      = some (Sum.inl (DefaultPromptHandler.resize tokenize convert_tokens_to_string
          model_max_length max_length prompt).resized_prompt) :=
  rfl

/-- Helper: the new-prompt-length entry of the returned dictionary. -/
lemma call_lookup_new_prompt_length (tokenize : String → List String)
    (convert_tokens_to_string : List String → String)
    (model_max_length max_length : Int) (prompt : String) :
    (DefaultPromptHandler.call tokenize convert_tokens_to_string
        model_max_length max_length prompt).lookup "new_prompt_length"
      = some (Sum.inr (DefaultPromptHandler.resize tokenize convert_tokens_to_string
          model_max_length max_length prompt).new_prompt_length) :=
  rfl

/-- Counterexample to claim C1: with a one-character-per-token tokenizer,
`model_max_length = 0`, `max_length = 1` and the non-empty prompt "a", the
over-budget branch applies, yet the reported `new_prompt_length` is 0 and
not the claimed truncation point `model_max_length - max_length = -1`
(Python's negative slice stop counts from the end of the token list). -/
theorem default_prompt_truncation_counterexample :
    ("a" ≠ "")
    ∧ ((0 : Int) < ((charTokenize "a").length : Int) + 1)
    ∧ (DefaultPromptHandler.call charTokenize String.join 0 1 "a").lookup "new_prompt_length"
        = some (Sum.inr 0)
    ∧ ((0 : Int) - 1 ≠ 0) := by
  decide

/-- Claim C1 (amended): for every non-empty prompt, `__call__` returns the
input unchanged as resized prompt when the token count plus `max_length`
fits in `model_max_length`; otherwise, provided `max_length` is at most
`model_max_length`, it returns the string obtained by converting the first
`model_max_length - max_length` tokens back to text, and reports
`new_prompt_length = model_max_length - max_length`. -/
theorem default_prompt_resize_spec (tokenize : String → List String)
    (convert_tokens_to_string : List String → String)
    (model_max_length max_length : Int) (prompt : String)
    (hp : prompt ≠ "") :
    (((tokenize prompt).length : Int) + max_length ≤ model_max_length →
      (DefaultPromptHandler.call tokenize convert_tokens_to_string
          model_max_length max_length prompt).lookup "resized_prompt"
        = some (Sum.inl prompt))
    ∧ (max_length ≤ model_max_length →
       model_max_length < ((tokenize prompt).length : Int) + max_length →
      (DefaultPromptHandler.call tokenize convert_tokens_to_string
          model_max_length max_length prompt).lookup "resized_prompt"
        = some (Sum.inl (convert_tokens_to_string
            ((tokenize prompt).take (model_max_length - max_length).toNat)))
      ∧ (DefaultPromptHandler.call tokenize convert_tokens_to_string
          model_max_length max_length prompt).lookup "new_prompt_length"
        = some (Sum.inr (model_max_length - max_length))) := by
  constructor
  · intro h
    rw [call_lookup_resized_prompt, resize_of_within_budget tokenize convert_tokens_to_string
      model_max_length max_length prompt hp h]
  · intro hml h
    have hk : (0 : Int) ≤ model_max_length - max_length := by omega
    constructor
    · rw [call_lookup_resized_prompt, resize_of_over_budget tokenize convert_tokens_to_string
        model_max_length max_length prompt hp h,
        pySliceTo_of_nonneg (tokenize prompt) (model_max_length - max_length) hk]
    · rw [call_lookup_new_prompt_length, resize_of_over_budget tokenize convert_tokens_to_string
        model_max_length max_length prompt hp h,
        length_pySliceTo_of_nonneg_lt (tokenize prompt)
          (model_max_length - max_length) hk (by omega)]

/-- Witness for C1 at the one-character-per-token tokenizer with
`model_max_length = 3`, `max_length = 1` and the over-budget prompt "abcd":
the prompt is truncated to its first two tokens "ab" with reported new
length 2. -/
theorem default_prompt_resize_spec_witness :
    ("abcd" ≠ "")
    ∧ ((1 : Int) ≤ 3)
    ∧ ((3 : Int) < ((charTokenize "abcd").length : Int) + 1)
    ∧ (DefaultPromptHandler.call charTokenize String.join 3 1 "abcd").lookup "resized_prompt"
        = some (Sum.inl "ab")
    ∧ (DefaultPromptHandler.call charTokenize String.join 3 1 "abcd").lookup "new_prompt_length"
        = some (Sum.inr 2) := by
  have h := (default_prompt_resize_spec charTokenize String.join 3 1 "abcd"
    (by decide)).2 (by decide) (by decide)
  exact ⟨by decide, by decide, by decide, h.1.trans (by decide), h.2.trans (by decide)⟩

/-- Counterexample to claim C2: with a one-character-per-token tokenizer,
`model_max_length = 1`, `max_length = 2` and the non-empty prompt "b", the
reported `new_prompt_length` is 0, and 0 plus the configured `max_length`
exceeds `model_max_length`. -/
theorem default_prompt_budget_counterexample :
    ("b" ≠ "")
    ∧ (DefaultPromptHandler.call charTokenize String.join 1 2 "b").lookup "new_prompt_length"
        = some (Sum.inr 0)
    ∧ ¬ ((0 : Int) + 2 ≤ 1) := by
  decide

/-- Claim C2 (amended): whenever the configured `max_length` is at most
`model_max_length`, the `new_prompt_length` computed by
`DefaultPromptHandler.__call__` plus `max_length` is at most
`model_max_length`, for every prompt and tokenizer. -/
theorem default_prompt_budget (tokenize : String → List String)
    (convert_tokens_to_string : List String → String)
    (model_max_length max_length : Int) (prompt : String)
    (hml : max_length ≤ model_max_length) :
    (DefaultPromptHandler.resize tokenize convert_tokens_to_string
        model_max_length max_length prompt).new_prompt_length + max_length
      ≤ model_max_length := by
  by_cases hp : prompt = ""
  · subst hp
    show (0 : Int) + max_length ≤ model_max_length
    omega
  · by_cases h : ((tokenize prompt).length : Int) + max_length ≤ model_max_length
    · rw [resize_of_within_budget tokenize convert_tokens_to_string
        model_max_length max_length prompt hp h]
      exact h
    · rw [resize_of_over_budget tokenize convert_tokens_to_string
        model_max_length max_length prompt hp (not_le.mp h)]
      have hle := length_pySliceTo_le_of_nonneg (tokenize prompt)
        (model_max_length - max_length) (by omega)
      show ((pySliceTo (tokenize prompt) (model_max_length - max_length)).length : Int)
          + max_length ≤ model_max_length
      omega

/-- Witness for C2 at the one-character-per-token tokenizer with
`model_max_length = 1`, `max_length = 1` and prompt "xyz". -/
theorem default_prompt_budget_witness :
    ((1 : Int) ≤ 1)
    ∧ (DefaultPromptHandler.resize charTokenize String.join 1 1 "xyz").new_prompt_length + 1
        ≤ 1 :=
  ⟨by decide, default_prompt_budget charTokenize String.join 1 1 "xyz" (by decide)⟩
